import Mathlib

/-!
Shallow embedding of the Quivr front-end helpers that derive UI state:

* `ConnectionButtons` — `src/frontend/lib/helpers/handleConnectionButtons.ts`
  (`isRemoveAll`, `arraysAreEqual`, `handleGetButtonProps`);
* `Notifications` — the notification aggregator component
  (`NotificationIcon`, `NotificationCount`, the body rendering of
  `Notification` and its openable breakdown lists);
* `SyncApi` — `src/frontend/lib/api/sync/sync.ts`
  (`createFilesSettings`, `createFoldersSettings`, `syncFiles`).

JavaScript's default `Array.prototype.sort` on strings compares
lexicographically by numeric character code; `charListLe` / `strLe` embed
that comparator and `sortIds` embeds `.sort()` on an array of id strings.
-/

namespace ConnectionButtons

/-- Lexicographic less-or-equal on character lists, comparing numeric
character codes, as JavaScript string comparison does. -/
def charListLe : List Char → List Char → Bool
  | [], _ => true
  | _ :: _, [] => false
  | a :: as, b :: bs =>
    if a.toNat < b.toNat then true
    else if b.toNat < a.toNat then false
    else charListLe as bs

/-- JavaScript string comparison, on the underlying character list. -/
def strLe (a b : String) : Bool :=
  charListLe a.data b.data

/-- The ordering relation used by the embedded `.sort()`. -/
def StrLe (a b : String) : Prop :=
  strLe a b = true

instance : DecidableRel StrLe :=
  fun a b => Bool.decEq (strLe a b) true

/-- Embedding of JavaScript `.sort()` applied to an array of id strings:
a stable sort under the default string comparator. -/
def sortIds (ids : List String) : List String :=
  List.insertionSort StrLe ids

/-- One entry of `OpenedConnection.selectedFiles.files` as used by
`handleConnectionButtons.ts`: only the string `id` field is read. -/
structure SyncElement where
  id : String
deriving DecidableEq, Repr

/-- The `selectedFiles` record, holding the checked file elements. -/
structure SyncElements where
  files : List SyncElement
deriving DecidableEq, Repr

/-- The `OpenedConnection` record as consumed by
`handleConnectionButtons.ts`: `id` is `number | undefined` and
`selectedFiles.files` is the checked file list. -/
structure OpenedConnection where
  user_sync_id : Int
  id : Option Int
  submitted : Bool
  selectedFiles : SyncElements
  name : String
  last_synced : String
deriving DecidableEq, Repr

/-- Embedding of `isRemoveAll` (lines 3-11): true when the current
connection was submitted and the matching opened connection has an empty
selected-file list. -/
def isRemoveAll (matchingOpenedConnection : OpenedConnection)
    (currentConnection : Option OpenedConnection) : Bool :=
  (match currentConnection with
    | some cc => cc.submitted
    | none => false)
  && (matchingOpenedConnection.selectedFiles.files.length == 0)

/-- Embedding of `arraysAreEqual` (lines 13-25): length check followed by a
position-by-position comparison. -/
def arraysAreEqual (arr1 arr2 : List String) : Bool :=
  if arr1.length ≠ arr2.length then
    false
  else
    (List.range arr1.length).all fun i => arr1.getD i "" == arr2.getD i ""

/-- The color type of the returned button: `"dangerous" | "primary"`. -/
inductive ButtonType
  | dangerous
  | primary
deriving DecidableEq, Repr

/-- Which of the two stateful callbacks the returned closure calls. -/
inductive ConnAction
  | addConnection
  | removeConnection
deriving DecidableEq, Repr

/-- The record returned by `handleGetButtonProps`; the callback is
recorded as which state-updating helper it invokes. -/
structure ButtonProps where
  label : String
  type : ButtonType
  disabled : Bool
  callback : ConnAction
deriving DecidableEq, Repr

/-- The final `return` of `handleGetButtonProps` (lines 84-91), reached
when no branch above fired.  Its `disabled` field embeds
`!matchingOpenedConnection?.selectedFiles.files.length`, which is `true`
when there is no matching opened connection. -/
def addSpecificFilesProps (matchingOpenedConnection : Option OpenedConnection) :
    ButtonProps where
  label := "Add specific files"
  type := ButtonType.primary
  disabled :=
    match matchingOpenedConnection with
    | none => true
    | some m => m.selectedFiles.files.length == 0
  callback := ConnAction.addConnection

/-- Embedding of `handleGetButtonProps` (lines 27-91).  The matching opened
connection is `openedConnections.find((conn) => conn.id === currentConnection.id)`
when `currentConnection` is defined.  The React state setters and the sync
id only feed the callbacks, so the embedding keeps the callback as a
`ConnAction` tag. -/
def handleGetButtonProps (currentConnection : Option OpenedConnection)
    (openedConnections : List OpenedConnection) : ButtonProps :=
  match currentConnection with
  | none => addSpecificFilesProps none
  | some cc =>
    match openedConnections.find? (fun conn => conn.id == cc.id) with
    | none => addSpecificFilesProps none
    | some m =>
      if isRemoveAll m (some cc) then
        { label := "Remove All"
          type := ButtonType.dangerous
          disabled := false
          callback := ConnAction.removeConnection }
      else if cc.submitted then
        let matchingSelectedFileIds :=
          sortIds (m.selectedFiles.files.map fun file => file.id)
        let currentSelectedFileIds :=
          sortIds (cc.selectedFiles.files.map fun file => file.id)
        let isDisabled :=
          arraysAreEqual matchingSelectedFileIds currentSelectedFileIds
        { label := "Update added files"
          type := ButtonType.primary
          disabled := (m.selectedFiles.files.length == 0) || isDisabled
          callback := ConnAction.addConnection }
      else
        addSpecificFilesProps (some m)

/-- Sample connection used to instantiate the theorems on concrete
inputs. -/
def mkConn (i : Option Int) (sub : Bool) (ids : List String) :
    OpenedConnection where
  user_sync_id := 0
  id := i
  submitted := sub
  selectedFiles := ⟨ids.map SyncElement.mk⟩
  name := "conn"
  last_synced := "2024-01-01"

end ConnectionButtons

namespace Notifications

/-- Modelled from the spec: the notification status domain.  The
`NotificationType` record lives in a types module that is not among the
sources here; the spec fixes the status domain to `info`, `success` and
`error`, and the component code only ever compares `status` against these
three literals. -/
inductive NotificationStatus
  | info
  | success
  | error
deriving DecidableEq, Repr

/-- Modelled from the spec: the bulk-action category domain `upload`,
`crawl`, `sync`, read by the notification header. -/
inductive NotificationCategory
  | upload
  | crawl
  | sync
deriving DecidableEq, Repr

/-- One flat notification record, keeping the fields the `Notification`
component reads: `id` (deletion), `title` and `description` (breakdown
rows) and `status`. -/
structure NotificationType where
  id : String
  title : String
  description : String
  status : NotificationStatus
deriving DecidableEq, Repr

/-- A client-side bulk grouping of notifications sharing an action category
and a brain id. -/
structure BulkNotification where
  category : NotificationCategory
  brain_id : String
  notifications : List NotificationType
deriving DecidableEq, Repr

/-- The three icons the `NotificationIcon` component can render. -/
inductive RenderedIcon
  | loader
  | checkSuccess
  | warningTriangle
deriving DecidableEq, Repr

/-- Embedding of the `NotificationIcon` component (lines 125-141): a loader
when any member has status `info`, a success check when every member has
status `success`, and a warning icon otherwise. -/
def NotificationIcon (notifications : List NotificationType) : RenderedIcon :=
  let hasInfo :=
    notifications.any fun notif => notif.status == NotificationStatus.info
  let allSuccess :=
    notifications.all fun notif => notif.status == NotificationStatus.success
  if hasInfo then RenderedIcon.loader
  else if allSuccess then RenderedIcon.checkSuccess
  else RenderedIcon.warningTriangle

/-- The CSS class attached to the progress count: empty while incomplete,
`warning` or `success` once `completed === total`. -/
inductive CountClass
  | emptyClass
  | warningClass
  | successClass
deriving DecidableEq, Repr

/-- What the `NotificationCount` component displays. -/
structure CountRendering where
  completed : Nat
  total : Nat
  className : CountClass
deriving DecidableEq, Repr

/-- Embedding of the `NotificationCount` component (lines 143-164):
`total` is the member count, `completed` counts the members whose status is
not `info`, and the class is `warning`/`success` once all are completed. -/
def NotificationCount (notifications : List NotificationType) : CountRendering :=
  let total := notifications.length
  let completed :=
    (notifications.filter fun notif =>
      notif.status != NotificationStatus.info).length
  let hasError :=
    notifications.any fun notif => notif.status == NotificationStatus.error
  { completed := completed
    total := total
    className :=
      if completed == total then
        if hasError then CountClass.warningClass else CountClass.successClass
      else CountClass.emptyClass }

/-- The body a `Notification` component renders under the header: either
the in-progress loader block (icon, progress count, loading bar) or the
status report with its optional success and error chips. -/
inductive NotificationBody
  | inProgress (icon : RenderedIcon) (count : CountRendering)
  | statusReport (successCount : Option Nat) (errorCount : Option Nat)
deriving DecidableEq, Repr

/-- Embedding of the body rendering of the `Notification` component
(lines 209-266): the loader block whenever some member has status `info`,
otherwise the status report whose chips show the success and error counts
when the corresponding members exist. -/
def Notification (bulkNotification : BulkNotification) : NotificationBody :=
  if bulkNotification.notifications.any
      (fun notif => notif.status == NotificationStatus.info) then
    NotificationBody.inProgress
      (NotificationIcon bulkNotification.notifications)
      (NotificationCount bulkNotification.notifications)
  else
    NotificationBody.statusReport
      (if bulkNotification.notifications.any
          (fun notif => notif.status == NotificationStatus.success) then
        some ((bulkNotification.notifications.filter
          fun notif => notif.status == NotificationStatus.success).length)
      else none)
      (if bulkNotification.notifications.any
          (fun notif => notif.status == NotificationStatus.error) then
        some ((bulkNotification.notifications.filter
          fun notif => notif.status == NotificationStatus.error).length)
      else none)

/-- Embedding of the openable error breakdown list (lines 267-279): the
members whose status is `error`, filtered in order. -/
def errorFileList (bulkNotification : BulkNotification) :
    List NotificationType :=
  bulkNotification.notifications.filter
    fun notif => notif.status == NotificationStatus.error

/-- Embedding of the openable success breakdown list (lines 280-292). -/
def successFileList (bulkNotification : BulkNotification) :
    List NotificationType :=
  bulkNotification.notifications.filter
    fun notif => notif.status == NotificationStatus.success

/-- Sample notification used to instantiate the theorems on concrete
inputs. -/
def mkNotif (t : String) (s : NotificationStatus) : NotificationType where
  id := t
  title := t
  description := t
  status := s

/-- Sample bulk notification used to instantiate the theorems on concrete
inputs. -/
def mkBulk (l : List NotificationType) : BulkNotification where
  category := NotificationCategory.upload
  brain_id := "b1"
  notifications := l

end Notifications

namespace SyncApi

/-- The fields of a `KMSElement` read by `sync.ts`: `sync_file_id` is
`string | null` and `is_folder` discriminates folders from files. -/
structure KMSElement where
  id : String
  sync_file_id : Option String
  is_folder : Bool
deriving DecidableEq, Repr

/-- The `OpenedConnection` record as consumed by `sync.ts`, where
`selectedFiles` is the list of selected `KMSElement`s. -/
structure OpenedConnection where
  user_sync_id : Int
  id : Option Int
  submitted : Bool
  selectedFiles : List KMSElement
  name : String
  last_synced : String
deriving DecidableEq, Repr

/-- Embedding of `createFilesSettings` (lines 6-7): the `sync_file_id`s of
the selected elements that are not folders. -/
def createFilesSettings (files : List KMSElement) : List (Option String) :=
  (files.filter fun file => !file.is_folder).map fun file => file.sync_file_id

/-- Embedding of `createFoldersSettings` (lines 9-10): the `sync_file_id`s
of the selected elements that are folders. -/
def createFoldersSettings (files : List KMSElement) : List (Option String) :=
  (files.filter fun file => file.is_folder).map fun file => file.sync_file_id

/-- The `settings` object of the `POST /sync/active` body. -/
structure SyncSettingsBody where
  files : List (Option String)
  folders : List (Option String)
deriving DecidableEq, Repr

/-- The JSON body of the `POST /sync/active` request. -/
structure SyncActiveBody where
  name : String
  syncs_user_id : Int
  settings : SyncSettingsBody
  brain_id : String
deriving DecidableEq, Repr

/-- An HTTP method tag for the issued request. -/
inductive HttpMethod
  | post
  | put
  | httpGet
  | httpDelete
deriving DecidableEq, Repr

/-- The request issued by `syncFiles`: method, path and JSON body. -/
structure SyncActiveRequest where
  method : HttpMethod
  path : String
  body : SyncActiveBody
deriving DecidableEq, Repr

/-- Embedding of `syncFiles` (lines 74-90): a `POST /sync/active` whose
body carries the connection name, its `user_sync_id` as `syncs_user_id`,
the file/folder settings split of the selected elements, and the brain
id. -/
def syncFiles (openedConnection : OpenedConnection) (brainId : String) :
    SyncActiveRequest where
  method := HttpMethod.post
  path := "/sync/active"
  body :=
    { name := openedConnection.name
      syncs_user_id := openedConnection.user_sync_id
      settings :=
        { files := createFilesSettings openedConnection.selectedFiles
          folders := createFoldersSettings openedConnection.selectedFiles }
      brain_id := brainId }

end SyncApi

namespace ConnectionButtons

theorem charListLe_total : ∀ as bs : List Char,
    charListLe as bs = true ∨ charListLe bs as = true := by
  intro as
  induction as with
  | nil => intro bs; left; rfl
  | cons a as ih =>
    intro bs
    cases bs with
    | nil => right; rfl
    | cons b bs =>
      rcases Nat.lt_trichotomy a.toNat b.toNat with h | h | h
      · left; simp [charListLe, h]
      · rcases ih bs with h2 | h2
        · left; simp [charListLe, h, h2]
        · right; simp [charListLe, h.symm, h2]
      · right; simp [charListLe, h]

theorem charListLe_trans : ∀ as bs cs : List Char,
    charListLe as bs = true → charListLe bs cs = true →
    charListLe as cs = true := by
  intro as
  induction as with
  | nil => intro bs cs _ _; rfl
  | cons a as ih =>
    intro bs cs hab hbc
    cases bs with
    | nil => simp [charListLe] at hab
    | cons b bs =>
      cases cs with
      | nil => simp [charListLe] at hbc
      | cons c cs =>
        simp only [charListLe] at hab hbc ⊢
        by_cases hac : a.toNat < c.toNat
        · simp [hac]
        · by_cases hab1 : a.toNat < b.toNat
          · by_cases hbc1 : b.toNat < c.toNat
            · omega
            · by_cases hcb : c.toNat < b.toNat
              · simp [hcb] at hbc
                omega
              · omega
          · by_cases hba : b.toNat < a.toNat
            · simp [hab1, hba] at hab
            · by_cases hbc1 : b.toNat < c.toNat
              · omega
              · by_cases hcb : c.toNat < b.toNat
                · simp [hbc1, hcb] at hbc
                · have hca : ¬ c.toNat < a.toNat := by omega
                  simp [hab1, hba] at hab
                  simp [hbc1, hcb] at hbc
                  simp [hac, hca]
                  exact ih bs cs hab hbc

theorem charListLe_antisymm : ∀ as bs : List Char,
    charListLe as bs = true → charListLe bs as = true → as = bs := by
  intro as
  induction as with
  | nil =>
    intro bs _ hba
    cases bs with
    | nil => rfl
    | cons b bs => simp [charListLe] at hba
  | cons a as ih =>
    intro bs hab hba
    cases bs with
    | nil => simp [charListLe] at hab
    | cons b bs =>
      simp only [charListLe] at hab hba
      by_cases h1 : a.toNat < b.toNat
      · have : ¬ b.toNat < a.toNat := by omega
        simp [h1, this] at hba
      · by_cases h2 : b.toNat < a.toNat
        · simp [h1, h2] at hab
        · have hval : a = b := by
            have : a.toNat = b.toNat := by omega
            exact Char.eq_of_val_eq (by
              apply UInt32.eq_of_val_eq
              apply Fin.eq_of_val_eq
              simpa [Char.toNat, UInt32.toNat] using this)
          simp [h1, h2] at hab hba
          rw [hval, ih bs hab hba]

theorem strLe_isTotal : IsTotal String StrLe :=
  ⟨fun a b => charListLe_total a.data b.data⟩

theorem strLe_isTrans : IsTrans String StrLe :=
  ⟨fun a b c hab hbc => charListLe_trans a.data b.data c.data hab hbc⟩

theorem strLe_isAntisymm : IsAntisymm String StrLe :=
  ⟨fun a b hab hba => by
    cases a with
    | mk da =>
      cases b with
      | mk db => exact congrArg String.mk (charListLe_antisymm da db hab hba)⟩

theorem sortIds_perm (ids : List String) : (sortIds ids).Perm ids :=
  List.perm_insertionSort StrLe ids

theorem sortIds_sorted (ids : List String) :
    List.Sorted StrLe (sortIds ids) := by
  haveI := strLe_isTotal
  haveI := strLe_isTrans
  exact List.sorted_insertionSort StrLe ids

theorem sortIds_eq_of_perm {l l' : List String} (h : l.Perm l') :
    sortIds l = sortIds l' := by
  haveI := strLe_isAntisymm
  exact List.eq_of_perm_of_sorted
    ((sortIds_perm l).trans (h.trans (sortIds_perm l').symm))
    (sortIds_sorted l) (sortIds_sorted l')

theorem arraysAreEqual_eq_true_iff (arr1 arr2 : List String) :
    arraysAreEqual arr1 arr2 = true ↔
      arr1.length = arr2.length ∧
        ∀ i, i < arr1.length → arr1.getD i "" = arr2.getD i "" := by
  unfold arraysAreEqual
  by_cases hlen : arr1.length = arr2.length
  · simp [hlen]
  · simp [hlen]

theorem arraysAreEqual_iff_eq (arr1 arr2 : List String) :
    arraysAreEqual arr1 arr2 = true ↔ arr1 = arr2 := by
  rw [arraysAreEqual_eq_true_iff]
  constructor
  · rintro ⟨hlen, hpt⟩
    apply List.ext_getElem hlen
    intro i h1 h2
    have hi := hpt i h1
    rwa [List.getD_eq_getElem _ _ h1, List.getD_eq_getElem _ _ h2] at hi
  · rintro rfl
    exact ⟨rfl, fun i _ => rfl⟩

/-- C1: whenever the connection being edited has `submitted = true` and the
matching previously opened connection (same id found in
`openedConnections`) has an empty selected-file list, `handleGetButtonProps`
returns label `"Remove All"`, type `"dangerous"` and `disabled = false`. -/
theorem handleGetButtonProps_removeAll_spec
    (cc m : OpenedConnection) (openedConnections : List OpenedConnection)
    (hsub : cc.submitted = true)
    (hfind : openedConnections.find? (fun conn => conn.id == cc.id) = some m)
    (hempty : m.selectedFiles.files = []) :
    (handleGetButtonProps (some cc) openedConnections).label = "Remove All" ∧
    (handleGetButtonProps (some cc) openedConnections).type =
      ButtonType.dangerous ∧
    (handleGetButtonProps (some cc) openedConnections).disabled = false := by
  have hr : isRemoveAll m (some cc) = true := by
    simp [isRemoveAll, hsub, hempty]
  simp [handleGetButtonProps, hfind, hr]

theorem handleGetButtonProps_removeAll_witness :
    (mkConn (some 1) true ["x"]).submitted = true ∧
    ([mkConn (some 1) true []].find?
      (fun conn => conn.id == (mkConn (some 1) true ["x"]).id) =
        some (mkConn (some 1) true [])) ∧
    (mkConn (some 1) true []).selectedFiles.files = [] ∧
    (handleGetButtonProps (some (mkConn (some 1) true ["x"]))
        [mkConn (some 1) true []]).label = "Remove All" ∧
    (handleGetButtonProps (some (mkConn (some 1) true ["x"]))
        [mkConn (some 1) true []]).type = ButtonType.dangerous ∧
    (handleGetButtonProps (some (mkConn (some 1) true ["x"]))
        [mkConn (some 1) true []]).disabled = false := by
  refine ⟨by decide, by decide, by decide, ?_⟩
  exact handleGetButtonProps_removeAll_spec (mkConn (some 1) true ["x"])
    (mkConn (some 1) true []) [mkConn (some 1) true []]
    (by decide) (by decide) (by decide)

/-- C2: whenever the connection being edited has `submitted = true`, a
matching opened connection with the same id exists and its selected-file
list is non-empty, `handleGetButtonProps` returns label
`"Update added files"` with type `"primary"`, and `disabled = true` exactly
when the sorted array of selected file ids of the matching connection
equals the sorted array of selected file ids of the connection being
edited. -/
theorem handleGetButtonProps_update_spec
    (cc m : OpenedConnection) (openedConnections : List OpenedConnection)
    (hsub : cc.submitted = true)
    (hfind : openedConnections.find? (fun conn => conn.id == cc.id) = some m)
    (hne : m.selectedFiles.files ≠ []) :
    (handleGetButtonProps (some cc) openedConnections).label =
      "Update added files" ∧
    (handleGetButtonProps (some cc) openedConnections).type =
      ButtonType.primary ∧
    ((handleGetButtonProps (some cc) openedConnections).disabled = true ↔
      sortIds (m.selectedFiles.files.map fun file => file.id) =
        sortIds (cc.selectedFiles.files.map fun file => file.id)) := by
  have hlen : (m.selectedFiles.files.length == 0) = false := by
    simp [List.length_eq_zero, hne]
  have hr : isRemoveAll m (some cc) = false := by
    simp [isRemoveAll, hlen]
  simp [handleGetButtonProps, hfind, hr, hsub, hlen, arraysAreEqual_iff_eq]

theorem handleGetButtonProps_update_witness :
    (mkConn (some 1) true ["x", "y"]).submitted = true ∧
    ([mkConn (some 1) true ["y", "x"]].find?
      (fun conn => conn.id == (mkConn (some 1) true ["x", "y"]).id) =
        some (mkConn (some 1) true ["y", "x"])) ∧
    (mkConn (some 1) true ["y", "x"]).selectedFiles.files ≠ [] ∧
    ((handleGetButtonProps (some (mkConn (some 1) true ["x", "y"]))
        [mkConn (some 1) true ["y", "x"]]).label = "Update added files" ∧
    (handleGetButtonProps (some (mkConn (some 1) true ["x", "y"]))
        [mkConn (some 1) true ["y", "x"]]).type = ButtonType.primary ∧
    ((handleGetButtonProps (some (mkConn (some 1) true ["x", "y"]))
        [mkConn (some 1) true ["y", "x"]]).disabled = true ↔
      sortIds ((mkConn (some 1) true ["y", "x"]).selectedFiles.files.map
          fun file => file.id) =
        sortIds ((mkConn (some 1) true ["x", "y"]).selectedFiles.files.map
          fun file => file.id))) := by
  refine ⟨by decide, by decide, by decide, ?_⟩
  exact handleGetButtonProps_update_spec (mkConn (some 1) true ["x", "y"])
    (mkConn (some 1) true ["y", "x"]) [mkConn (some 1) true ["y", "x"]]
    (by decide) (by decide) (by decide)

/-- C3 as stated is false on the code: here is a connection that was never
submitted and has one selected file, yet the returned button is disabled,
because no connection in `openedConnections` carries its id and the
disabled flag is computed from the matching connection, not from the
connection being edited. -/
theorem handleGetButtonProps_addFiles_counterexample :
    (mkConn (some 1) false ["f1"]).submitted = false ∧
    (mkConn (some 1) false ["f1"]).selectedFiles.files.length = 1 ∧
    (handleGetButtonProps (some (mkConn (some 1) false ["f1"])) []).label =
      "Add specific files" ∧
    (handleGetButtonProps (some (mkConn (some 1) false ["f1"])) []).disabled =
      true := by
  decide

/-- C3 amended: whenever the connection being edited has
`submitted = false`, the returned label is `"Add specific files"` with type
`"primary"`, and `disabled = false` exactly when a matching opened
connection with the same id exists in `openedConnections` and its
selected-file list is non-empty. -/
theorem handleGetButtonProps_addFiles_spec
    (cc : OpenedConnection) (openedConnections : List OpenedConnection)
    (hsub : cc.submitted = false) :
    (handleGetButtonProps (some cc) openedConnections).label =
      "Add specific files" ∧
    (handleGetButtonProps (some cc) openedConnections).type =
      ButtonType.primary ∧
    ((handleGetButtonProps (some cc) openedConnections).disabled = false ↔
      ∃ m, openedConnections.find? (fun conn => conn.id == cc.id) = some m ∧
        m.selectedFiles.files ≠ []) := by
  cases hfind : openedConnections.find? (fun conn => conn.id == cc.id) with
  | none =>
    simp [handleGetButtonProps, hfind, addSpecificFilesProps]
  | some m =>
    have hr : isRemoveAll m (some cc) = false := by
      simp [isRemoveAll, hsub]
    simp [handleGetButtonProps, hfind, hr, hsub, addSpecificFilesProps,
      List.length_eq_zero]

theorem handleGetButtonProps_addFiles_witness :
    (mkConn (some 2) false ["a"]).submitted = false ∧
    ((handleGetButtonProps (some (mkConn (some 2) false ["a"]))
        [mkConn (some 2) false ["a"]]).label = "Add specific files" ∧
    (handleGetButtonProps (some (mkConn (some 2) false ["a"]))
        [mkConn (some 2) false ["a"]]).type = ButtonType.primary ∧
    ((handleGetButtonProps (some (mkConn (some 2) false ["a"]))
        [mkConn (some 2) false ["a"]]).disabled = false ↔
      ∃ m, [mkConn (some 2) false ["a"]].find?
          (fun conn => conn.id == (mkConn (some 2) false ["a"]).id) = some m ∧
        m.selectedFiles.files ≠ [])) :=
  ⟨by decide,
    handleGetButtonProps_addFiles_spec (mkConn (some 2) false ["a"])
      [mkConn (some 2) false ["a"]] (by decide)⟩

/-- C9: whenever the connection being edited is undefined, or no connection
in `openedConnections` carries its id, `handleGetButtonProps` returns label
`"Add specific files"`, type `"primary"` and `disabled = true`, regardless
of the submitted flag or selected files of the connection being edited. -/
theorem handleGetButtonProps_noMatch_spec
    (currentConnection : Option OpenedConnection)
    (openedConnections : List OpenedConnection)
    (h : ∀ cc, currentConnection = some cc →
      openedConnections.find? (fun conn => conn.id == cc.id) = none) :
    handleGetButtonProps currentConnection openedConnections =
      { label := "Add specific files"
        type := ButtonType.primary
        disabled := true
        callback := ConnAction.addConnection } := by
  cases currentConnection with
  | none => rfl
  | some cc => simp [handleGetButtonProps, h cc rfl, addSpecificFilesProps]

theorem handleGetButtonProps_noMatch_witness :
    (∀ cc, (some (mkConn (some 3) true ["a"])) = some cc →
      ([] : List OpenedConnection).find? (fun conn => conn.id == cc.id) =
        none) ∧
    handleGetButtonProps (some (mkConn (some 3) true ["a"])) [] =
      { label := "Add specific files"
        type := ButtonType.primary
        disabled := true
        callback := ConnAction.addConnection } :=
  ⟨fun _ _ => rfl,
    handleGetButtonProps_noMatch_spec (some (mkConn (some 3) true ["a"])) []
      (fun _ _ => rfl)⟩

/-- C8: the file-id equality check used by the update affordance —
`arraysAreEqual` applied to independently sorted id arrays — returns true
exactly when the sorted arrays have the same length and agree at every
position; consequently its result is invariant under any permutation of
either id list, while duplicate ids are not de-duplicated: two lists with
the same underlying id set but different duplicate multiplicities compare
unequal. -/
theorem arraysAreEqual_sortIds_spec :
    (∀ ids1 ids2 : List String,
      arraysAreEqual (sortIds ids1) (sortIds ids2) = true ↔
        (sortIds ids1).length = (sortIds ids2).length ∧
          ∀ i, i < (sortIds ids1).length →
            (sortIds ids1).getD i "" = (sortIds ids2).getD i "") ∧
    (∀ ids1 ids1' ids2 : List String, ids1.Perm ids1' →
      arraysAreEqual (sortIds ids1) (sortIds ids2) =
        arraysAreEqual (sortIds ids1') (sortIds ids2)) ∧
    (∀ ids1 ids2 ids2' : List String, ids2.Perm ids2' →
      arraysAreEqual (sortIds ids1) (sortIds ids2) =
        arraysAreEqual (sortIds ids1) (sortIds ids2')) ∧
    ((∀ x ∈ (["a", "a", "b"] : List String), x ∈ (["a", "b", "b"] : List String)) ∧
      (∀ x ∈ (["a", "b", "b"] : List String), x ∈ (["a", "a", "b"] : List String)) ∧
      arraysAreEqual (sortIds ["a", "a", "b"]) (sortIds ["a", "b", "b"]) =
        false) := by
  refine ⟨fun ids1 ids2 => arraysAreEqual_eq_true_iff _ _, ?_, ?_, ?_, ?_, ?_⟩
  · intro ids1 ids1' ids2 h
    rw [sortIds_eq_of_perm h]
  · intro ids1 ids2 ids2' h
    rw [sortIds_eq_of_perm h]
  · decide
  · decide
  · decide

theorem arraysAreEqual_sortIds_witness :
    (["x", "y"] : List String).Perm ["y", "x"] ∧
    arraysAreEqual (sortIds ["x", "y"]) (sortIds ["z"]) =
      arraysAreEqual (sortIds ["y", "x"]) (sortIds ["z"]) :=
  ⟨List.Perm.swap "y" "x" [],
    arraysAreEqual_sortIds_spec.2.1 ["x", "y"] ["y", "x"] ["z"]
      (List.Perm.swap "y" "x" [])⟩

end ConnectionButtons

namespace Notifications

theorem length_filter_not_info (l : List NotificationType) :
    (l.filter fun notif => notif.status != NotificationStatus.info).length =
      (l.filter fun notif =>
        notif.status == NotificationStatus.success).length +
      (l.filter fun notif =>
        notif.status == NotificationStatus.error).length := by
  induction l with
  | nil => rfl
  | cons n l ih =>
    cases hs : n.status <;> simp [List.filter_cons, hs, ih] <;> omega

/-- C4: whenever the member list of a bulk notification contains at least
one notification with status `info`, the aggregator renders the
in-progress state: the loader icon together with the completed/total
progress count, regardless of any other statuses present. -/
theorem Notification_inProgress_spec
    (bulkNotification : BulkNotification)
    (h : bulkNotification.notifications.any
      (fun notif => notif.status == NotificationStatus.info) = true) :
    Notification bulkNotification =
      NotificationBody.inProgress RenderedIcon.loader
        (NotificationCount bulkNotification.notifications) := by
  simp [Notification, NotificationIcon, h]

theorem Notification_inProgress_witness :
    (mkBulk [mkNotif "a" NotificationStatus.info,
        mkNotif "b" NotificationStatus.error,
        mkNotif "c" NotificationStatus.success]).notifications.any
      (fun notif => notif.status == NotificationStatus.info) = true ∧
    Notification (mkBulk [mkNotif "a" NotificationStatus.info,
        mkNotif "b" NotificationStatus.error,
        mkNotif "c" NotificationStatus.success]) =
      NotificationBody.inProgress RenderedIcon.loader
        (NotificationCount (mkBulk [mkNotif "a" NotificationStatus.info,
          mkNotif "b" NotificationStatus.error,
          mkNotif "c" NotificationStatus.success]).notifications) :=
  ⟨by decide,
    Notification_inProgress_spec
      (mkBulk [mkNotif "a" NotificationStatus.info,
        mkNotif "b" NotificationStatus.error,
        mkNotif "c" NotificationStatus.success]) (by decide)⟩

/-- C5: whenever the member list of a bulk notification contains no
notification with status `info` and none with status `error`, the
aggregator renders the success state: the success check icon and the
success styling on the progress count. -/
theorem NotificationIcon_success_spec
    (notifications : List NotificationType)
    (hinfo : ∀ notif ∈ notifications,
      notif.status ≠ NotificationStatus.info)
    (herror : ∀ notif ∈ notifications,
      notif.status ≠ NotificationStatus.error) :
    NotificationIcon notifications = RenderedIcon.checkSuccess ∧
    (NotificationCount notifications).className = CountClass.successClass := by
  have hall : notifications.all
      (fun notif => notif.status == NotificationStatus.success) = true := by
    rw [List.all_eq_true]
    intro n hn
    cases hs : n.status with
    | info => exact absurd hs (hinfo n hn)
    | success => simp
    | error => exact absurd hs (herror n hn)
  have hnoinfo : notifications.any
      (fun notif => notif.status == NotificationStatus.info) = false := by
    rw [List.any_eq_false]
    intro n hn
    simpa using hinfo n hn
  have hnoerr : notifications.any
      (fun notif => notif.status == NotificationStatus.error) = false := by
    rw [List.any_eq_false]
    intro n hn
    simpa using herror n hn
  have hfilter : notifications.filter
      (fun notif => notif.status != NotificationStatus.info) = notifications :=
    List.filter_eq_self.mpr fun n hn => by simpa using hinfo n hn
  constructor
  · simp [NotificationIcon, hnoinfo, hall]
  · simp [NotificationCount, hfilter, hnoerr]

theorem NotificationIcon_success_witness :
    (∀ notif ∈ [mkNotif "a" NotificationStatus.success,
        mkNotif "b" NotificationStatus.success],
      notif.status ≠ NotificationStatus.info) ∧
    (∀ notif ∈ [mkNotif "a" NotificationStatus.success,
        mkNotif "b" NotificationStatus.success],
      notif.status ≠ NotificationStatus.error) ∧
    (NotificationIcon [mkNotif "a" NotificationStatus.success,
        mkNotif "b" NotificationStatus.success] = RenderedIcon.checkSuccess ∧
      (NotificationCount [mkNotif "a" NotificationStatus.success,
        mkNotif "b" NotificationStatus.success]).className =
          CountClass.successClass) :=
  ⟨by decide, by decide,
    NotificationIcon_success_spec
      [mkNotif "a" NotificationStatus.success,
        mkNotif "b" NotificationStatus.success] (by decide) (by decide)⟩

/-- C6: whenever the member list of a bulk notification contains no
notification with status `info` and at least one with status `error`, the
aggregator renders the warning state, and the openable error breakdown
list holds exactly the members whose status is `error`, in their original
order (it is an order-preserving sublist whose members are exactly the
`error` ones). -/
theorem Notification_warning_spec
    (bulkNotification : BulkNotification)
    (hinfo : bulkNotification.notifications.any
      (fun notif => notif.status == NotificationStatus.info) = false)
    (herror : bulkNotification.notifications.any
      (fun notif => notif.status == NotificationStatus.error) = true) :
    NotificationIcon bulkNotification.notifications =
      RenderedIcon.warningTriangle ∧
    errorFileList bulkNotification =
      bulkNotification.notifications.filter
        (fun notif => notif.status == NotificationStatus.error) ∧
    List.Sublist (errorFileList bulkNotification)
      bulkNotification.notifications ∧
    (∀ notif, notif ∈ errorFileList bulkNotification ↔
      notif ∈ bulkNotification.notifications ∧
        notif.status = NotificationStatus.error) := by
  have hallsucc : bulkNotification.notifications.all
      (fun notif => notif.status == NotificationStatus.success) = false := by
    rw [List.any_eq_true] at herror
    obtain ⟨n, hn, hs⟩ := herror
    rw [Bool.eq_false_iff]
    intro hall
    rw [List.all_eq_true] at hall
    have := hall n hn
    simp at hs this
    rw [hs] at this
    exact absurd this (by decide)
  refine ⟨by simp [NotificationIcon, hinfo, hallsucc], rfl,
    List.filter_sublist _, fun notif => ?_⟩
  simp [errorFileList, List.mem_filter]

theorem Notification_warning_witness :
    (mkBulk [mkNotif "a" NotificationStatus.error,
        mkNotif "b" NotificationStatus.success]).notifications.any
      (fun notif => notif.status == NotificationStatus.info) = false ∧
    (mkBulk [mkNotif "a" NotificationStatus.error,
        mkNotif "b" NotificationStatus.success]).notifications.any
      (fun notif => notif.status == NotificationStatus.error) = true ∧
    NotificationIcon (mkBulk [mkNotif "a" NotificationStatus.error,
        mkNotif "b" NotificationStatus.success]).notifications =
      RenderedIcon.warningTriangle :=
  ⟨by decide, by decide,
    (Notification_warning_spec
      (mkBulk [mkNotif "a" NotificationStatus.error,
        mkNotif "b" NotificationStatus.success]) (by decide) (by decide)).1⟩

/-- C10: in the in-progress rendering, the displayed progress count has
`total` equal to the number of member notifications and `completed` equal
to the number of members whose status is not `info`; in particular members
with status `error` are counted as completed, as `completed` splits into
the `success` count plus the `error` count. -/
theorem NotificationCount_progress_spec
    (bulkNotification : BulkNotification)
    (h : bulkNotification.notifications.any
      (fun notif => notif.status == NotificationStatus.info) = true) :
    Notification bulkNotification =
      NotificationBody.inProgress
        (NotificationIcon bulkNotification.notifications)
        (NotificationCount bulkNotification.notifications) ∧
    (NotificationCount bulkNotification.notifications).total =
      bulkNotification.notifications.length ∧
    (NotificationCount bulkNotification.notifications).completed =
      (bulkNotification.notifications.filter fun notif =>
        notif.status != NotificationStatus.info).length ∧
    (NotificationCount bulkNotification.notifications).completed =
      (bulkNotification.notifications.filter fun notif =>
        notif.status == NotificationStatus.success).length +
      (bulkNotification.notifications.filter fun notif =>
        notif.status == NotificationStatus.error).length := by
  refine ⟨by simp [Notification, h], rfl, rfl, ?_⟩
  exact length_filter_not_info bulkNotification.notifications

theorem NotificationCount_progress_witness :
    (mkBulk [mkNotif "a" NotificationStatus.info,
        mkNotif "b" NotificationStatus.error]).notifications.any
      (fun notif => notif.status == NotificationStatus.info) = true ∧
    (NotificationCount (mkBulk [mkNotif "a" NotificationStatus.info,
        mkNotif "b" NotificationStatus.error]).notifications).total =
      (mkBulk [mkNotif "a" NotificationStatus.info,
        mkNotif "b" NotificationStatus.error]).notifications.length ∧
    (NotificationCount (mkBulk [mkNotif "a" NotificationStatus.info,
        mkNotif "b" NotificationStatus.error]).notifications).completed =
      ((mkBulk [mkNotif "a" NotificationStatus.info,
        mkNotif "b" NotificationStatus.error]).notifications.filter
        (fun notif => notif.status == NotificationStatus.success)).length +
      ((mkBulk [mkNotif "a" NotificationStatus.info,
        mkNotif "b" NotificationStatus.error]).notifications.filter
        (fun notif => notif.status == NotificationStatus.error)).length :=
  ⟨by decide,
    (NotificationCount_progress_spec
      (mkBulk [mkNotif "a" NotificationStatus.info,
        mkNotif "b" NotificationStatus.error]) (by decide)).2.1,
    (NotificationCount_progress_spec
      (mkBulk [mkNotif "a" NotificationStatus.info,
        mkNotif "b" NotificationStatus.error]) (by decide)).2.2.2⟩

end Notifications

namespace SyncApi

/-- C7: for every opened connection and brain id, `syncFiles` issues a
`POST /sync/active` whose body carries the connection name, its
`user_sync_id` as `syncs_user_id`, the brain id as `brain_id`, and a
settings object whose `files` are exactly the `sync_file_id`s of the
selected elements that are not folders and whose `folders` are exactly the
`sync_file_id`s of the selected elements that are folders. -/
theorem syncFiles_spec
    (openedConnection : OpenedConnection) (brainId : String) :
    (syncFiles openedConnection brainId).method = HttpMethod.post ∧
    (syncFiles openedConnection brainId).path = "/sync/active" ∧
    (syncFiles openedConnection brainId).body.name =
      openedConnection.name ∧
    (syncFiles openedConnection brainId).body.syncs_user_id =
      openedConnection.user_sync_id ∧
    (syncFiles openedConnection brainId).body.brain_id = brainId ∧
    (syncFiles openedConnection brainId).body.settings.files =
      (openedConnection.selectedFiles.filter fun file =>
        !file.is_folder).map (fun file => file.sync_file_id) ∧
    (syncFiles openedConnection brainId).body.settings.folders =
      (openedConnection.selectedFiles.filter fun file =>
        file.is_folder).map (fun file => file.sync_file_id) :=
  ⟨rfl, rfl, rfl, rfl, rfl, rfl, rfl⟩

end SyncApi
